import Mathlib

/-!
Verification development for the kubectl-assistant repository.

The embedding models the four reproducible components of the repository:
the command runner (kubectl_exec in agent.py), the observation formatter
(the display_kubectl decorator and _print_regular_output in agent.py),
the settings store (config.py) and the conversation store (save_memory
and load_memory in agent.py).

Python strings are sequences of Unicode code points, so the Python string
methods used by the source (strip, startswith, endswith, split, negative
slicing) are modelled at the level of the underlying character list of a
Lean String.  External collaborators (the subprocess module, the json
parser, the pickle codec, the LLM libraries) are modelled as parameters
or as abstract file states, exactly at their interface boundary.
-/

namespace KubeAssistant

/-- Whitespace characters removed by Python str.strip with no argument
(ASCII part: space, tab, newline, carriage return, form feed, vertical tab). -/
def isPySpace (c : Char) : Bool :=
  c = ' ' || c = '\t' || c = '\n' || c = '\r' || c = '\x0c' || c = '\x0b'

/-- Python str.strip: remove leading and trailing whitespace. -/
def pyStrip (s : String) : String :=
  ⟨((s.data.dropWhile isPySpace).reverse.dropWhile isPySpace).reverse⟩

/-- Python str.startswith: code-point-level test that p is a leading segment of s. -/
def pyStartsWith (s p : String) : Bool :=
  p.data.isPrefixOf s.data

/-- Python str.endswith: code-point-level test that p is a trailing segment of s. -/
def pyEndsWith (s p : String) : Bool :=
  p.data.isSuffixOf s.data

/-- Python negative slice s[-n:]: the last n characters of s
(the whole string when s has at most n characters). -/
def pyTakeLast (s : String) (n : Nat) : String :=
  ⟨s.data.drop (s.data.length - n)⟩

/-- Split a character list at every occurrence of the separator,
matching Python str.split with an explicit separator
(so the empty input yields one empty field). -/
def splitOnCharList (sep : Char) : List Char → List (List Char)
  | [] => [[]]
  | c :: cs =>
    let r := splitOnCharList sep cs
    if c = sep then [] :: r
    else
      match r with
      | t :: ts => (c :: t) :: ts
      | [] => [[c]]

/-- Python output.split with separator newline, as used by _print_regular_output. -/
def pySplitLines (s : String) : List String :=
  (splitOnCharList '\n' s.data).map fun cs => ⟨cs⟩

/-- Python newline.join, as used by _print_regular_output for the preview. -/
def pyJoinLines (lines : List String) : String :=
  String.intercalate "\n" lines

/-! ### Model of Python shlex.split (POSIX mode, whitespace_split)

kubectl_exec converts the normalized command line into an argument list
with shlex.split.  shlex.split uses POSIX rules with whitespace_split:
tokens are separated by unquoted whitespace; single quotes protect
everything, double quotes process backslash escapes of backslash and
double quote, and an unquoted backslash escapes the next character.
An unclosed quote or a trailing escape raises ValueError, modelled as
the error case of Except. -/

/-- Whitespace characters recognized by shlex (its whitespace attribute). -/
def isShlexWs (c : Char) : Bool :=
  c = ' ' || c = '\t' || c = '\r' || c = '\n'

/-- Lexer state of the shlex state machine. -/
inductive ShlexState where
  /-- Outside any quote. -/
  | normal
  /-- Inside single quotes. -/
  | inSingle
  /-- Inside double quotes. -/
  | inDouble
  /-- Just read an escape character outside quotes. -/
  | escNormal
  /-- Just read an escape character inside double quotes. -/
  | escDouble
deriving DecidableEq

/-- The shlex state machine.  acc is the current token in reverse;
started records whether a token is in progress (so that an empty quoted
string still yields a token). -/
def shlexRun : List Char → ShlexState → List Char → Bool → Except String (List String)
  | [], ShlexState.normal, acc, started =>
    if started then Except.ok [⟨acc.reverse⟩] else Except.ok []
  | [], ShlexState.escNormal, _, _ => Except.error "No escaped character"
  | [], ShlexState.escDouble, _, _ => Except.error "No escaped character"
  | [], _, _, _ => Except.error "No closing quotation"
  | c :: cs, ShlexState.normal, acc, started =>
    if isShlexWs c then
      if started then
        Except.map (fun ts => (⟨acc.reverse⟩ : String) :: ts)
          (shlexRun cs ShlexState.normal [] false)
      else
        shlexRun cs ShlexState.normal [] false
    else if c = '\x27' then shlexRun cs ShlexState.inSingle acc true
    else if c = '\x22' then shlexRun cs ShlexState.inDouble acc true
    else if c = '\\' then shlexRun cs ShlexState.escNormal acc true
    else shlexRun cs ShlexState.normal (c :: acc) true
  | c :: cs, ShlexState.inSingle, acc, _ =>
    if c = '\x27' then shlexRun cs ShlexState.normal acc true
    else shlexRun cs ShlexState.inSingle (c :: acc) true
  | c :: cs, ShlexState.inDouble, acc, _ =>
    if c = '\x22' then shlexRun cs ShlexState.normal acc true
    else if c = '\\' then shlexRun cs ShlexState.escDouble acc true
    else shlexRun cs ShlexState.inDouble (c :: acc) true
  | c :: cs, ShlexState.escNormal, acc, _ =>
    shlexRun cs ShlexState.normal (c :: acc) true
  | c :: cs, ShlexState.escDouble, acc, _ =>
    if c = '\x22' || c = '\\' then shlexRun cs ShlexState.inDouble (c :: acc) true
    else shlexRun cs ShlexState.inDouble (c :: '\\' :: acc) true

/-- Python shlex.split: either the token list or a ValueError message. -/
def shlexSplit (s : String) : Except String (List String) :=
  shlexRun s.data ShlexState.normal [] false

/-! ### Command Runner: kubectl_exec (agent.py lines 136-161) -/

/-- The normalization performed by kubectl_exec before execution
(agent.py lines 147-152): command.strip(), then prepend the literal
"kubectl " whenever the stripped command does not start with it. -/
def kubectlNormalize (command : String) : String :=
  let command := pyStrip command
  if pyStartsWith command "kubectl " then command else "kubectl " ++ command

/-- Outcome of one child process run, as captured by subprocess.run
with capture_output and text (agent.py line 158). -/
structure ProcResult where
  /-- Exit status of the child process. -/
  exitCode : Int
  /-- Captured standard output. -/
  stdout : String
  /-- Captured standard error. -/
  stderr : String
deriving DecidableEq

/-- Model of kubectl_exec (agent.py lines 137-161), parameterized by the behavior
of the external subprocess (run).  The Except error case is the
uncaught ValueError that shlex.split raises on malformed quoting; the ok
case is the string the function returns: captured stdout on exit status
zero, otherwise the string "Error: " followed by captured stderr (the
CalledProcessError branch). -/
def kubectl_exec (run : List String → ProcResult) (command : String) :
    Except String String :=
  match shlexSplit (kubectlNormalize command) with
  | Except.error e => Except.error e
  | Except.ok cmd_args =>
    let result := run cmd_args
    if result.exitCode = 0 then Except.ok result.stdout
    else Except.ok ("Error: " ++ result.stderr)

/-! ### Observation Formatter: display_kubectl and _print_regular_output
(agent.py lines 39-134)

The decorator is modelled as a function of the outcome of the wrapped
call.  Console output is modelled as a list of display events; the json
module is external, so JSON parsing is a parameter returning an optional
parsed value of an abstract type, and the JSON success branch records
the indent argument 2 passed to json.dumps. -/

/-- Outcome of calling the wrapped execution function: a returned string
or a raised exception carrying its message text. -/
inductive ExecOutcome where
  /-- The function returned this string. -/
  | ok (value : String)
  /-- The function raised an exception with this message. -/
  | exn (msg : String)
deriving DecidableEq

/-- One operator-facing console output item produced by the decorator. -/
inductive DisplayEvent (α : Type) where
  /-- A console rule with a label. -/
  | rule (label : String)
  /-- One row of the parameter table. -/
  | paramRow (name value : String)
  /-- The highlighted command line printed for kubectl_exec. -/
  | commandLine (cmd : String)
  /-- Pretty-printed JSON output: the indent passed to json.dumps and the parsed value. -/
  | outputJson (indent : Nat) (value : α)
  /-- Plain output, printed in full. -/
  | outputPlain (text : String)
  /-- Truncated output: the displayed preview and the count of omitted lines. -/
  | outputTruncated (preview : String) (omitted : Nat)
  /-- The error text printed when the wrapped function raised. -/
  | errorText (msg : String)
deriving DecidableEq

/-- Model of _print_regular_output (agent.py lines 122-134): split on newline; with
more than 20 lines display only the first 20 and the count of omitted
lines, otherwise display the whole output. -/
def _print_regular_output {α : Type} (output : String) : List (DisplayEvent α) :=
  let output_lines := pySplitLines output
  if output_lines.length > 20 then
    [DisplayEvent.outputTruncated (pyJoinLines (output_lines.take 20))
      (output_lines.length - 20)]
  else
    [DisplayEvent.outputPlain output]

/-- The condition of agent.py line 93: the raw result text starts with a
left brace and ends with a right brace, with no trimming applied. -/
def isJsonShaped (output : String) : Bool :=
  pyStartsWith output "\x7b" && pyEndsWith output "\x7d"

/-- The output rendering of the decorator (agent.py lines 93-106): when
the raw text is brace-delimited, attempt a JSON parse; on success record
json.dumps with indent 2 of the parsed value, on failure fall back to
_print_regular_output, which is also used for all other text. -/
def displayOutput {α : Type} (parse : String → Option α) (output : String) :
    List (DisplayEvent α) :=
  if isJsonShaped output then
    match parse output with
    | some v => [DisplayEvent.outputJson 2 v]
    | none => _print_regular_output output
  else
    _print_regular_output output

/-- The header displayed before executing the wrapped function
(agent.py lines 59-86): a rule naming the tool, the parameter table, and
for kubectl_exec with at least one positional argument the command line. -/
def displayHeader {α : Type} (tool_name : String) (args : List String) :
    List (DisplayEvent α) :=
  DisplayEvent.rule ("EXECUTING: " ++ tool_name) ::
    (args.enum.map fun p => DisplayEvent.paramRow ("arg" ++ toString p.fst) p.snd) ++
    (if tool_name = "kubectl_exec" then
      match args with
      | a :: _ => [DisplayEvent.commandLine a]
      | [] => []
    else [])

/-- The wrapper installed by the display_kubectl decorator (agent.py
lines 47-117), as a function of the global SHOW_TOOL_CALLS flag, the
tool name, the stringified positional arguments, and the outcome of the
wrapped call.  It returns the value handed to the caller together with
the console events.  With the flag off it returns the wrapped call's
outcome unchanged and displays nothing (line 51-52); with the flag on it
displays the header, then on normal return displays the output and
passes the value through, and on an exception displays the error text
and returns the plain string "Error: " followed by the message. -/
def display_kubectl {α : Type} (parse : String → Option α) (show_tool_calls : Bool)
    (tool_name : String) (args : List String) (outcome : ExecOutcome) :
    ExecOutcome × List (DisplayEvent α) :=
  if !show_tool_calls then (outcome, [])
  else
    match outcome with
    | ExecOutcome.ok output =>
      (ExecOutcome.ok output,
        displayHeader tool_name args ++ displayOutput parse output ++
          [DisplayEvent.rule ""])
    | ExecOutcome.exn msg =>
      (ExecOutcome.ok ("Error: " ++ msg),
        displayHeader tool_name args ++ [DisplayEvent.errorText msg, DisplayEvent.rule ""])

/-! ### Settings Store: config.py -/

/-- The openai section of the settings record. -/
structure OpenAISettings where
  /-- OpenAI API key. -/
  api_key : String
  /-- OpenAI model name. -/
  model : String
deriving DecidableEq

/-- The azure section of the settings record. -/
structure AzureSettings where
  /-- Azure OpenAI API key. -/
  api_key : String
  /-- Azure OpenAI endpoint URL. -/
  endpoint : String
  /-- Azure OpenAI deployment name. -/
  deployment : String
  /-- Azure OpenAI API version. -/
  api_version : String
deriving DecidableEq

/-- The settings record persisted in config.json (config.py lines 18-27). -/
structure Config where
  /-- Active provider, openai or azure. -/
  provider : String
  /-- OpenAI settings section. -/
  openai : OpenAISettings
  /-- Azure settings section. -/
  azure : AzureSettings
deriving DecidableEq

/-- Model of DEFAULT_CONFIG (config.py lines 18-27). -/
def DEFAULT_CONFIG : Config :=
  { provider := "openai"
    openai := { api_key := "", model := "gpt-4o" }
    azure := { api_key := "", endpoint := "", deployment := "", api_version := "2023-05-15" } }

/-- State of the persisted settings file: missing, unreadable or
syntactically malformed JSON (json.JSONDecodeError or IOError on read),
or a well-formed stored record. -/
inductive ConfigFile where
  /-- The file at CONFIG_FILE does not exist. -/
  | absent
  /-- The file at CONFIG_FILE exists but reading or JSON-decoding it fails. -/
  | malformed
  /-- The file at CONFIG_FILE holds this well-formed record. -/
  | wellFormed (config : Config)
deriving DecidableEq

/-- Model of load_config (config.py lines 36-54): defaults when the file is
missing, defaults when reading or decoding fails, otherwise the stored
record. -/
def load_config : ConfigFile → Config
  | ConfigFile.absent => DEFAULT_CONFIG
  | ConfigFile.malformed => DEFAULT_CONFIG
  | ConfigFile.wellFormed config => config

/-- Model of save_config (config.py lines 57-67): write the record as JSON,
fully replacing the file contents. -/
def save_config (config : Config) : ConfigFile :=
  ConfigFile.wellFormed config

/-- Model of update_provider (config.py lines 103-112). -/
def update_provider (provider : String) (st : ConfigFile) : ConfigFile :=
  let config := load_config st
  save_config { config with provider := provider }

/-- Model of update_openai_settings (config.py lines 115-133): each field is
written only when the corresponding argument is supplied. -/
def update_openai_settings (api_key : Option String) (model : Option String)
    (st : ConfigFile) : ConfigFile :=
  let config := load_config st
  let config :=
    match api_key with
    | some k => { config with openai := { config.openai with api_key := k } }
    | none => config
  let config :=
    match model with
    | some m => { config with openai := { config.openai with model := m } }
    | none => config
  save_config config

/-- Model of update_azure_settings (config.py lines 136-165): each field is
written only when the corresponding argument is supplied. -/
def update_azure_settings (api_key : Option String) (endpoint : Option String)
    (deployment : Option String) (api_version : Option String)
    (st : ConfigFile) : ConfigFile :=
  let config := load_config st
  let config :=
    match api_key with
    | some k => { config with azure := { config.azure with api_key := k } }
    | none => config
  let config :=
    match endpoint with
    | some e => { config with azure := { config.azure with endpoint := e } }
    | none => config
  let config :=
    match deployment with
    | some d => { config with azure := { config.azure with deployment := d } }
    | none => config
  let config :=
    match api_version with
    | some v => { config with azure := { config.azure with api_version := v } }
    | none => config
  save_config config

/-- Model of view_config (config.py lines 168-193): the displayed record with the
credential fields redacted.  A non-empty api_key longer than 4
characters is replaced by three asterisks followed by its last 4
characters (the Python slice key[-4:]); a non-empty api_key of at most
4 characters is replaced by three asterisks; an empty api_key is left
alone.  The final json.dumps serialization is external and omitted: the
model returns the record that is dumped. -/
def view_config (st : ConfigFile) : Config :=
  let config := load_config st
  let config :=
    if config.openai.api_key ≠ "" then
      { config with openai := { config.openai with api_key :=
          if config.openai.api_key.length > 4 then
            ("***" ++ pyTakeLast config.openai.api_key 4)
          else "***" } }
    else config
  let config :=
    if config.azure.api_key ≠ "" then
      { config with azure := { config.azure with api_key :=
          if config.azure.api_key.length > 4 then
            ("***" ++ pyTakeLast config.azure.api_key 4)
          else "***" } }
    else config
  config

/-- Model of clear_config (config.py lines 196-198). -/
def clear_config : ConfigFile :=
  save_config DEFAULT_CONFIG

/-! ### Conversation Store: save_memory and load_memory
(agent.py lines 346-402)

The transcript is pickled to a file; pickle is external, so the file
state distinguishes a missing file, a file pickle.load fails on, a file
holding a value that is not a list of recognized message objects, and a
faithfully stored transcript. -/

/-- Role of one conversation turn (HumanMessage or AIMessage). -/
inductive Role where
  /-- A human message. -/
  | human
  /-- An assistant message. -/
  | assistant
deriving DecidableEq

/-- One conversation turn: role and text. -/
structure Turn where
  /-- Who produced the turn. -/
  role : Role
  /-- The message text. -/
  text : String
deriving DecidableEq

/-- State of the persisted memory file. -/
inductive MemoryFile where
  /-- The file at memory_path does not exist. -/
  | absent
  /-- Unpickling the file contents raises an error. -/
  | corrupted
  /-- Unpickling succeeds but the value is not a list of BaseMessage. -/
  | invalid
  /-- The file holds this pickled transcript. -/
  | valid (messages : List Turn)
deriving DecidableEq

/-- Model of save_memory (agent.py lines 346-364): pickle the current transcript
to the memory file, fully replacing it. -/
def save_memory (messages : List Turn) : MemoryFile :=
  MemoryFile.valid messages

/-- Model of load_memory (agent.py lines 366-402), as the transcript held in
memory afterwards, given the transcript previously in memory (if any)
and the file state.  A valid stored list replaces the previous messages
(they are cleared first, then extended); a missing, unreadable or
structurally invalid file yields a fresh empty transcript and never
propagates the error. -/
def load_memory (_prior : Option (List Turn)) : MemoryFile → List Turn
  | MemoryFile.absent => []
  | MemoryFile.corrupted => []
  | MemoryFile.invalid => []
  | MemoryFile.valid messages => messages

/-! ### Helper lemmas -/

/-- Running the shlex machine on a list starting with the eight
characters of "kubectl " first emits the token "kubectl". -/
theorem shlexRun_kubectl_sp (l : List Char) :
    shlexRun ('k' :: 'u' :: 'b' :: 'e' :: 'c' :: 't' :: 'l' :: ' ' :: l)
        ShlexState.normal [] false
      = Except.map (fun ts => ("kubectl" : String) :: ts)
          (shlexRun l ShlexState.normal [] false) := by
  rfl

/-- A successful pyStartsWith test decomposes the string. -/
theorem pyStartsWith_decomp {s p : String} (h : pyStartsWith s p = true) :
    s.data = p.data ++ s.data.drop p.data.length := by
  have hp : p.data <+: s.data := by
    unfold pyStartsWith at h
    exact List.isPrefixOf_iff_prefix.mp h
  obtain ⟨t, ht⟩ := hp
  rw [← ht]
  simp

/-- Any token list produced by shlex from a command line whose character
data starts with the eight characters of "kubectl " has head token
"kubectl". -/
theorem shlexRun_kubectl_head {l : List Char} {toks : List String}
    (h : shlexRun ('k' :: 'u' :: 'b' :: 'e' :: 'c' :: 't' :: 'l' :: ' ' :: l)
        ShlexState.normal [] false = Except.ok toks) :
    toks.head? = some "kubectl" := by
  rw [shlexRun_kubectl_sp] at h
  cases hr : shlexRun l ShlexState.normal [] false with
  | ok ts =>
    rw [hr] at h
    simp [Except.map] at h
    rw [← h]
    rfl
  | error e =>
    rw [hr] at h
    simp [Except.map] at h

/-! ### Claim theorems -/

/-- Concrete parse function never succeeding, for witnesses. -/
def parseNone : String → Option Unit := fun _ => none

/-- Concrete parse function always succeeding, for counterexamples. -/
def parseAlways : String → Option Unit := fun _ => some ()

/-- Claim C1, counterexample: the input consisting of the bare binary
name "kubectl" already contains the binary name as its leading (and
only) token, yet the executed command line is "kubectl kubectl", in
which the token "kubectl" appears twice, not exactly once. -/
theorem kubectlNormalize_cex :
    pyStrip "kubectl" = "kubectl" ∧
    shlexSplit "kubectl" = Except.ok ["kubectl"] ∧
    kubectlNormalize "kubectl" = "kubectl kubectl" ∧
    shlexSplit (kubectlNormalize "kubectl") = Except.ok ["kubectl", "kubectl"] ∧
    (["kubectl", "kubectl"] : List String).count "kubectl" = 2 :=
  ⟨by decide, rfl, by decide, rfl, by decide⟩

/-- Claim C1 (amended): after trimming surrounding whitespace, an input
that starts with the 8-character string "kubectl " (binary name followed
by a space) is executed unchanged, and any other input - including the
bare input "kubectl" itself - has "kubectl " prepended exactly once;
whenever the normalized command line tokenizes successfully, its leading
token is "kubectl". -/
theorem kubectlNormalize_spec (s : String) :
    (pyStartsWith (pyStrip s) "kubectl " = true → kubectlNormalize s = pyStrip s) ∧
    (pyStartsWith (pyStrip s) "kubectl " = false →
      kubectlNormalize s = "kubectl " ++ pyStrip s) ∧
    (∀ toks, shlexSplit (kubectlNormalize s) = Except.ok toks →
      toks.head? = some "kubectl") := by
  refine ⟨fun h => by simp [kubectlNormalize, h], fun h => by simp [kubectlNormalize, h], ?_⟩
  intro toks htoks
  by_cases h : pyStartsWith (pyStrip s) "kubectl " = true
  · have hd := pyStartsWith_decomp h
    have hn : kubectlNormalize s = pyStrip s := by simp [kubectlNormalize, h]
    rw [hn] at htoks
    unfold shlexSplit at htoks
    rw [hd] at htoks
    exact shlexRun_kubectl_head htoks
  · have hn : kubectlNormalize s = "kubectl " ++ pyStrip s := by
      simp [kubectlNormalize, Bool.eq_false_iff.mpr h]
    rw [hn] at htoks
    unfold shlexSplit at htoks
    rw [String.data_append] at htoks
    exact shlexRun_kubectl_head htoks

/-- Claim C1, witness: a plain command gets the binary name prepended
exactly once and the executed command line leads with token "kubectl". -/
theorem kubectlNormalize_spec_witness :
    kubectlNormalize "get pods" = "kubectl get pods" ∧
    (["kubectl", "get", "pods"] : List String).head? = some "kubectl" := by
  have h := kubectlNormalize_spec "get pods"
  refine ⟨(h.2.1 (by decide)).trans (by decide), h.2.2 ["kubectl", "get", "pods"] rfl⟩

/-- Concrete failing subprocess behavior, for witnesses. -/
def runFail : List String → ProcResult :=
  fun _ => { exitCode := 1, stdout := "", stderr := "boom" }

/-- Claim C2: whenever the child process exits non-zero, kubectl_exec
returns normally (an ok value, not a raised error) with the string
"Error: " followed by the captured stderr text: the first seven
characters flag the failure, the rest is exactly the stderr text, and
the result is never the empty string. -/
theorem kubectl_exec_nonzero_exit (run : List String → ProcResult) (command : String)
    (args : List String)
    (hargs : shlexSplit (kubectlNormalize command) = Except.ok args)
    (hfail : (run args).exitCode ≠ 0) :
    kubectl_exec run command = Except.ok ("Error: " ++ (run args).stderr) ∧
    ("Error: " ++ (run args).stderr).data.take 7 = "Error: ".data ∧
    ("Error: " ++ (run args).stderr).data.drop 7 = (run args).stderr.data ∧
    "Error: " ++ (run args).stderr ≠ "" := by
  refine ⟨?_, rfl, rfl, ?_⟩
  · unfold kubectl_exec
    rw [hargs]
    simp [hfail]
  · intro hempty
    have hl := congrArg String.length hempty
    rw [String.length_append] at hl
    have h7 : ("Error: " : String).length = 7 := rfl
    have h0 : ("" : String).length = 0 := rfl
    omega

/-- Claim C2, witness: exit status 1 with stderr "boom" yields the
flagged observation "Error: boom". -/
theorem kubectl_exec_nonzero_exit_witness :
    kubectl_exec runFail "get pods" = Except.ok "Error: boom" := by
  have h := kubectl_exec_nonzero_exit runFail "get pods" ["kubectl", "get", "pods"]
    rfl (by decide)
  exact h.1.trans rfl

/-- Claim C3, counterexample: with the tool-call display flag off, an
exception raised by the wrapped function is not caught and not converted
to an "Error: " string - the wrapper's outcome is the propagated
exception itself, with no display output. -/
theorem display_kubectl_cex :
    display_kubectl parseNone false "kubectl_exec" ["get pods"] (ExecOutcome.exn "boom")
      = (ExecOutcome.exn "boom", ([] : List (DisplayEvent Unit))) ∧
    ExecOutcome.exn "boom" ≠ ExecOutcome.ok "Error: boom" :=
  ⟨rfl, by decide⟩

/-- Claim C3 (amended): when the tool-call display flag is on, every
error raised by the wrapped execution function is caught by the
display_kubectl wrapper, its text is displayed, and the caller receives
the plain string "Error: " followed by the message; with the flag on no
exception ever propagates to the caller. -/
theorem display_kubectl_catches {α : Type} (parse : String → Option α)
    (tool_name : String) (args : List String) (msg : String) :
    (display_kubectl parse true tool_name args (ExecOutcome.exn msg)).fst
        = ExecOutcome.ok ("Error: " ++ msg) ∧
    DisplayEvent.errorText msg
        ∈ (display_kubectl parse true tool_name args (ExecOutcome.exn msg)).snd ∧
    (∀ outcome : ExecOutcome, ∀ m : String,
      (display_kubectl parse true tool_name args outcome).fst ≠ ExecOutcome.exn m) := by
  refine ⟨rfl, ?_, ?_⟩
  · simp [display_kubectl]
  · intro outcome m
    cases outcome <;> simp [display_kubectl]

/-- Claim C3, witness: with the flag on, the raised message "boom" is
downgraded to the returned string "Error: boom". -/
theorem display_kubectl_catches_witness :
    (display_kubectl parseNone true "kubectl_exec" ["get pods"]
        (ExecOutcome.exn "boom")).fst = ExecOutcome.ok "Error: boom" :=
  (display_kubectl_catches parseNone "kubectl_exec" ["get pods"] "boom").1.trans rfl

/-- Claim C4, counterexample: the result text consisting of an opening
brace, a closing brace and a trailing newline begins with a brace and
ends with a brace after trimming, and the parser succeeds on every
input, yet the formatter renders it plainly and produces no JSON output
event: the code tests the raw text without trimming. -/
theorem displayOutput_cex :
    pyStartsWith (pyStrip "\x7b\x7d\n") "\x7b" = true ∧
    pyEndsWith (pyStrip "\x7b\x7d\n") "\x7d" = true ∧
    displayOutput parseAlways "\x7b\x7d\n" = [DisplayEvent.outputPlain "\x7b\x7d\n"] ∧
    ([DisplayEvent.outputPlain "\x7b\x7d\n"] : List (DisplayEvent Unit))
      ≠ [DisplayEvent.outputJson 2 ()] :=
  ⟨by decide, by decide, rfl, by decide⟩

/-- Claim C4 (amended): JSON rendering is attempted if and only if the
raw result text - with no trimming applied - begins with an opening
brace and ends with a closing brace; on successful parse the parsed
value is pretty-printed via json.dumps with indent 2, and on parse
failure (as for all other text) the formatter falls back to plain
rendering. -/
theorem displayOutput_spec {α : Type} (parse : String → Option α) (output : String) :
    (isJsonShaped output = true → ∀ v, parse output = some v →
      displayOutput parse output = [DisplayEvent.outputJson 2 v]) ∧
    ((isJsonShaped output = false ∨ parse output = none) →
      displayOutput parse output = _print_regular_output output) ∧
    (∀ v : α, DisplayEvent.outputJson 2 v ∈ displayOutput parse output →
      isJsonShaped output = true ∧ parse output = some v) := by
  refine ⟨?_, ?_, ?_⟩
  · intro hj v hv
    simp [displayOutput, hj, hv]
  · intro h
    rcases h with h | h
    · simp [displayOutput, h]
    · by_cases hj : isJsonShaped output <;> simp [displayOutput, hj, h]
  · intro v hv
    by_cases hj : isJsonShaped output
    · cases hp : parse output with
      | some w =>
        simp [displayOutput, hj, hp] at hv
        exact ⟨hj, by simp [hp, hv]⟩
      | none =>
        simp [displayOutput, hj, hp, _print_regular_output] at hv
        split at hv <;> simp at hv
    · simp [displayOutput, hj, _print_regular_output] at hv
      split at hv <;> simp at hv

/-- Concrete parse function succeeding exactly on the two-character
brace string, for witnesses. -/
def parseBrace : String → Option Unit :=
  fun s => if s = "\x7b\x7d" then some () else none

/-- Claim C4, witness: a brace-delimited result that parses is rendered
as JSON with indent 2, and a non-brace-delimited result is rendered
plainly. -/
theorem displayOutput_spec_witness :
    displayOutput parseBrace "\x7b\x7d" = [DisplayEvent.outputJson 2 ()] ∧
    displayOutput parseBrace "plain text" = _print_regular_output "plain text" :=
  ⟨(displayOutput_spec parseBrace "\x7b\x7d").1 (by decide) () (by decide),
   (displayOutput_spec parseBrace "plain text").2.1 (Or.inl (by decide))⟩

/-- Claim C5: for a plainly rendered result of more than 20 lines, the
displayed event is exactly one truncated-output event whose preview is
the first 20 lines joined by newlines and whose omitted count is the
exact number of remaining lines, and the value the wrapper returns to
its caller is the unmodified original string. -/
theorem display_kubectl_truncation {α : Type} (parse : String → Option α)
    (tool_name : String) (args : List String) (output : String)
    (hplain : isJsonShaped output = false ∨ parse output = none)
    (hlen : (pySplitLines output).length > 20) :
    (display_kubectl parse true tool_name args (ExecOutcome.ok output)).fst
        = ExecOutcome.ok output ∧
    _print_regular_output (α := α) output
        = [DisplayEvent.outputTruncated (pyJoinLines ((pySplitLines output).take 20))
            ((pySplitLines output).length - 20)] ∧
    DisplayEvent.outputTruncated (pyJoinLines ((pySplitLines output).take 20))
        ((pySplitLines output).length - 20)
      ∈ (display_kubectl parse true tool_name args (ExecOutcome.ok output)).snd := by
  have hpr : _print_regular_output (α := α) output
      = [DisplayEvent.outputTruncated (pyJoinLines ((pySplitLines output).take 20))
          ((pySplitLines output).length - 20)] := by
    simp [_print_regular_output, hlen]
  have hdo : displayOutput parse output = _print_regular_output output := by
    rcases hplain with h | h
    · simp [displayOutput, h]
    · by_cases hj : isJsonShaped output <;> simp [displayOutput, hj, h]
  refine ⟨rfl, hpr, ?_⟩
  simp [display_kubectl, hdo, hpr]

/-- A concrete 21-line output, for the truncation witness. -/
def out21 : String :=
  "l0\nl1\nl2\nl3\nl4\nl5\nl6\nl7\nl8\nl9\nl10\nl11\nl12\nl13\nl14\nl15\nl16\nl17\nl18\nl19\nl20"

/-- Claim C5, witness: a 21-line output is returned unmodified while the
display shows the first 20 lines and an omitted count of 1. -/
theorem display_kubectl_truncation_witness :
    (display_kubectl parseNone true "kubectl_exec" ["get pods"]
        (ExecOutcome.ok out21)).fst = ExecOutcome.ok out21 ∧
    _print_regular_output (α := Unit) out21
        = [DisplayEvent.outputTruncated (pyJoinLines ((pySplitLines out21).take 20))
            ((pySplitLines out21).length - 20)] ∧
    DisplayEvent.outputTruncated (pyJoinLines ((pySplitLines out21).take 20))
        ((pySplitLines out21).length - 20)
      ∈ (display_kubectl parseNone true "kubectl_exec" ["get pods"]
          (ExecOutcome.ok out21)).snd :=
  display_kubectl_truncation parseNone "kubectl_exec" ["get pods"] out21
    (Or.inl (by decide)) (by decide)

/-- Claim C10: with the tool-call display flag off, the display_kubectl
wrapper returns exactly the wrapped call's outcome - including a raised
exception, which propagates uncaught - and produces no display output. -/
theorem display_kubectl_flag_off {α : Type} (parse : String → Option α)
    (tool_name : String) (args : List String) (outcome : ExecOutcome) :
    display_kubectl parse false tool_name args outcome
      = (outcome, ([] : List (DisplayEvent α))) :=
  rfl

/-- The openai api_key field displayed by view_config, as a function of
the stored record. -/
theorem view_config_openai_key (c : Config) :
    (view_config (ConfigFile.wellFormed c)).openai.api_key =
      (if c.openai.api_key ≠ "" then
        (if c.openai.api_key.length > 4 then "***" ++ pyTakeLast c.openai.api_key 4
         else "***")
       else c.openai.api_key) := by
  by_cases h1 : c.openai.api_key ≠ "" <;> by_cases h2 : c.azure.api_key ≠ "" <;>
    simp [view_config, load_config, h1, h2]

/-- The azure api_key field displayed by view_config, as a function of
the stored record. -/
theorem view_config_azure_key (c : Config) :
    (view_config (ConfigFile.wellFormed c)).azure.api_key =
      (if c.azure.api_key ≠ "" then
        (if c.azure.api_key.length > 4 then "***" ++ pyTakeLast c.azure.api_key 4
         else "***")
       else c.azure.api_key) := by
  by_cases h1 : c.openai.api_key ≠ "" <;> by_cases h2 : c.azure.api_key ≠ "" <;>
    simp [view_config, load_config, h1, h2]

/-- A string of length greater than 4 is not empty. -/
theorem ne_empty_of_four_lt_length {s : String} (h : s.length > 4) : s ≠ "" := by
  intro he
  rw [he] at h
  exact absurd h (by decide)

/-- The stored record whose openai key consists of five letters a, for
the redaction counterexample. -/
def cAAA : Config :=
  { provider := "openai"
    openai := { api_key := "aaaaa", model := "gpt-4o" }
    azure := { api_key := "", endpoint := "", deployment := "", api_version := "2023-05-15" } }

/-- Claim C6, counterexample: the stored key "aaaaa" has length 5 > 4
and its remaining (non-displayed) part is the single character a, yet
the redacted display "***aaaa" does contain that remaining character,
so the display is not free of the remaining characters. -/
theorem view_config_redaction_cex :
    ("aaaaa" : String).length > 4 ∧
    (view_config (ConfigFile.wellFormed cAAA)).openai.api_key = "***aaaa" ∧
    ("aaaaa" : String).data.take (("aaaaa" : String).length - 4) = ['a'] ∧
    'a' ∈ ("***aaaa" : String).data :=
  ⟨by decide, by decide, by decide, by decide⟩

/-- Claim C6 (amended): for every stored credential value of length
greater than 4, the redacted display is exactly "***" followed by the
last 4 characters of the value - it begins with "***" and ends with
exactly the last 4 characters, and consists of nothing else, so no
information beyond the last 4 characters is shown (though characters
from the hidden part may coincide with displayed ones); non-empty
values of length at most 4 are shown as "***". -/
theorem view_config_redaction (c : Config) :
    (c.openai.api_key.length > 4 →
      (view_config (ConfigFile.wellFormed c)).openai.api_key
          = "***" ++ pyTakeLast c.openai.api_key 4 ∧
      ((view_config (ConfigFile.wellFormed c)).openai.api_key).data.take 3
          = "***".data ∧
      ((view_config (ConfigFile.wellFormed c)).openai.api_key).data.drop 3
          = (pyTakeLast c.openai.api_key 4).data) ∧
    (c.openai.api_key ≠ "" → c.openai.api_key.length ≤ 4 →
      (view_config (ConfigFile.wellFormed c)).openai.api_key = "***") ∧
    (c.azure.api_key.length > 4 →
      (view_config (ConfigFile.wellFormed c)).azure.api_key
          = "***" ++ pyTakeLast c.azure.api_key 4 ∧
      ((view_config (ConfigFile.wellFormed c)).azure.api_key).data.take 3
          = "***".data ∧
      ((view_config (ConfigFile.wellFormed c)).azure.api_key).data.drop 3
          = (pyTakeLast c.azure.api_key 4).data) ∧
    (c.azure.api_key ≠ "" → c.azure.api_key.length ≤ 4 →
      (view_config (ConfigFile.wellFormed c)).azure.api_key = "***") := by
  refine ⟨?_, ?_, ?_, ?_⟩
  · intro h
    have hne := ne_empty_of_four_lt_length h
    have he : (view_config (ConfigFile.wellFormed c)).openai.api_key
        = "***" ++ pyTakeLast c.openai.api_key 4 := by
      rw [view_config_openai_key, if_pos hne, if_pos h]
    refine ⟨he, ?_, ?_⟩ <;> rw [he] <;> rfl
  · intro hne hle
    rw [view_config_openai_key, if_pos hne, if_neg (by omega)]
  · intro h
    have hne := ne_empty_of_four_lt_length h
    have he : (view_config (ConfigFile.wellFormed c)).azure.api_key
        = "***" ++ pyTakeLast c.azure.api_key 4 := by
      rw [view_config_azure_key, if_pos hne, if_pos h]
    refine ⟨he, ?_, ?_⟩ <;> rw [he] <;> rfl
  · intro hne hle
    rw [view_config_azure_key, if_pos hne, if_neg (by omega)]

/-- A concrete stored record with a long openai key and a short azure
key, for the redaction witness. -/
def cWit : Config :=
  { provider := "openai"
    openai := { api_key := "sk-12345", model := "gpt-4o" }
    azure := { api_key := "az", endpoint := "", deployment := "", api_version := "2023-05-15" } }

/-- Claim C6, witness: the 8-character key "sk-12345" is shown as
"***2345" and the 2-character key "az" as "***". -/
theorem view_config_redaction_witness :
    (view_config (ConfigFile.wellFormed cWit)).openai.api_key = "***2345" ∧
    (view_config (ConfigFile.wellFormed cWit)).azure.api_key = "***" := by
  have h := view_config_redaction cWit
  exact ⟨(h.1 (by decide)).1.trans (by decide), h.2.2.2 (by decide) (by decide)⟩

/-- Claim C7: updating the provider, the openai settings or the azure
settings of a well-formed stored record and re-reading immediately
afterwards yields the supplied value for every supplied field, while
every field that was not supplied retains its previous value. -/
theorem config_update_frame (c : Config) (p : String)
    (okey omodel akey aendpoint adeployment aversion : Option String) :
    load_config (update_provider p (ConfigFile.wellFormed c)) = { c with provider := p } ∧
    load_config (update_openai_settings okey omodel (ConfigFile.wellFormed c)) =
      { c with openai :=
        { api_key := okey.getD c.openai.api_key
          model := omodel.getD c.openai.model } } ∧
    load_config (update_azure_settings akey aendpoint adeployment aversion
        (ConfigFile.wellFormed c)) =
      { c with azure :=
        { api_key := akey.getD c.azure.api_key
          endpoint := aendpoint.getD c.azure.endpoint
          deployment := adeployment.getD c.azure.deployment
          api_version := aversion.getD c.azure.api_version } } := by
  refine ⟨rfl, ?_, ?_⟩
  · cases okey <;> cases omodel <;> rfl
  · cases akey <;> cases aendpoint <;> cases adeployment <;> cases aversion <;> rfl

/-- Claim C7, witness: supplying only the openai api_key updates that
field and leaves the model (and all other sections) unchanged. -/
theorem config_update_frame_witness :
    load_config (update_openai_settings (some "k2") none
        (ConfigFile.wellFormed DEFAULT_CONFIG)) =
      { DEFAULT_CONFIG with openai := { api_key := "k2", model := "gpt-4o" } } := by
  have h := config_update_frame DEFAULT_CONFIG "azure" (some "k2") none none none none none
  exact h.2.1.trans (by decide)

/-- Claim C8: saving a transcript and loading it back - whatever
transcript was previously in memory - yields the same turns in the same
order with identical role and text, in particular the same number of
turns; loading a corrupted or structurally invalid persisted file yields
an empty transcript instead of propagating an error. -/
theorem memory_round_trip (messages : List Turn) (prior : Option (List Turn)) :
    load_memory prior (save_memory messages) = messages ∧
    (load_memory prior (save_memory messages)).length = messages.length ∧
    load_memory prior MemoryFile.corrupted = [] ∧
    load_memory prior MemoryFile.invalid = [] :=
  ⟨rfl, rfl, rfl, rfl⟩

/-- Claim C9: loading the settings when the file is missing, or when it
exists but reading or JSON-decoding it fails, returns the in-memory
default record; the load function is total, so neither case raises. -/
theorem load_config_recovers :
    load_config ConfigFile.absent = DEFAULT_CONFIG ∧
    load_config ConfigFile.malformed = DEFAULT_CONFIG :=
  ⟨rfl, rfl⟩

end KubeAssistant
